import Mathlib

/-!
Shallow embedding of `node-axios-metric` (src/index.ts): the metric data
model (AxiosRequestMetric, AxiosResponseMetric, AxiosErrorMetric), the
correlation metadata attached to a request config, and the interceptor
hooks installed by `useRequestMetric` / `useResponseMetric` / `use`.

Modelling conventions:
- JavaScript numbers used as timestamps are modelled as `Int`.
- A field that may be `undefined` is an `Option`.
- An operation that can throw a runtime `TypeError` returns an `Option`
  of its result, `none` standing for the thrown exception.
- The runtime `metadata` field of a config is modelled as optional even
  though the TypeScript module augmentation declares it mandatory: at
  runtime a config produced outside `useRequestMetric`'s interceptor
  carries no `metadata` key.
-/

namespace AxiosMetric

/-- An opaque JavaScript value, for header values, payloads and foreign
error values. -/
inductive JSVal where
  | str : String → JSVal
  | num : Int → JSVal
  | strs : List String → JSVal
deriving DecidableEq

/-- A headers object (`RawAxiosRequestHeaders` / `RawAxiosResponseHeaders`),
modelled as an association list. -/
def Headers := List (String × JSVal)
deriving DecidableEq

/-- The `AxiosRequestMetric` class: method, url, headers, data copied from
the config, plus the captured start timestamp. -/
structure AxiosRequestMetric where
  method : Option String
  url : Option String
  headers : Headers
  data : Option JSVal
  start_time : Int
deriving DecidableEq

/-- The runtime value of a config's `metadata` field. `metric` is the
`AxiosRequestMetric` reachable at `metadata.metric.request`; it is `none`
when that path is not readable (the `metric` or `request` key is missing),
in which case dereferencing it throws. `extra` holds any other keys of the
metadata object. -/
structure Metadata where
  metric : Option AxiosRequestMetric
  extra : List (String × JSVal)
deriving DecidableEq

/-- The runtime shape of `InternalAxiosRequestConfig`: the fields the
source reads, plus the `metadata` field, absent on configs that never went
through the request interceptor. -/
structure InternalAxiosRequestConfig where
  method : Option String
  url : Option String
  headers : Headers
  data : Option JSVal
  metadata : Option Metadata
deriving DecidableEq

/-- The `RequestMetric` shape (from `http-metric`) as embedded into
response/error metrics: the object literal built from the stored metric's
`headers`, `start_time` and `data`. -/
structure RequestMetric where
  headers : Headers
  start_time : Int
  data : Option JSVal
deriving DecidableEq

/-- The `response` record of an `AxiosResponseMetric`. -/
structure ResponseRecord where
  status_code : Int
  status_message : String
  data : Option JSVal
deriving DecidableEq

/-- The parts of an `AxiosResponse` the source reads. -/
structure AxiosResponse where
  config : InternalAxiosRequestConfig
  headers : Headers
  status : Int
  statusText : String
  data : Option JSVal
deriving DecidableEq

/-- The `AxiosRequestMetric` constructor: copies method, url, headers and
data from the config and records the start timestamp. -/
def AxiosRequestMetric.ofConfig (config : InternalAxiosRequestConfig)
    (start_time : Int) : AxiosRequestMetric :=
  { method := config.method
    url := config.url
    headers := config.headers
    data := config.data
    start_time := start_time }

/-- The evaluation of `config.metadata.metric.request`: `none` when the
chain is not readable, in which case the source throws a `TypeError`. -/
def readMetricRequest (config : InternalAxiosRequestConfig) :
    Option AxiosRequestMetric :=
  config.metadata.bind (fun md => md.metric)

/-- The object literal of type `HttpMetric & ResponseMetric` that
`fromAxiosResponse` passes to the private constructor. -/
structure ResponseMetricFields where
  method : Option String
  url : Option String
  headers : Option Headers
  request : Option RequestMetric
  response : ResponseRecord
  end_time : Int
  response_time : Int
deriving DecidableEq

/-- The `AxiosResponseMetric` class fields. -/
structure AxiosResponseMetric where
  method : Option String
  url : Option String
  request : Option RequestMetric
  headers : Option Headers
  response : ResponseRecord
  end_time : Int
  response_time : Int
deriving DecidableEq

/-- The private `AxiosResponseMetric` constructor: it assigns `method`,
`url`, `headers`, `response`, `end_time` and `response_time` from its
argument; the source constructor body contains no assignment to
`this.request`, so the `request` field is left `undefined`. -/
def AxiosResponseMetric.ofFields (metric : ResponseMetricFields) :
    AxiosResponseMetric :=
  { method := metric.method
    url := metric.url
    request := none
    headers := metric.headers
    response := metric.response
    end_time := metric.end_time
    response_time := metric.response_time }

/-- `AxiosResponseMetric.fromAxiosResponse`: builds the field literal from
the response and the correlation metadata, then calls the private
constructor. Reading the metadata throws (`none`) when it was never
attached. -/
def AxiosResponseMetric.fromAxiosResponse (response : AxiosResponse)
    (end_time : Int) : Option AxiosResponseMetric :=
  match readMetricRequest response.config with
  | none => none
  | some req =>
    some (AxiosResponseMetric.ofFields
      { method := response.config.method
        url := response.config.url
        headers := some response.headers
        request := some
          { headers := req.headers
            start_time := req.start_time
            data := req.data }
        response :=
          { status_code := response.status
            status_message := response.statusText
            data := response.data }
        end_time := end_time
        response_time := end_time - req.start_time })

/-- A failure value reaching the error interceptor: either a value for
which `axios.isAxiosError` is true (carrying its optional `config`), or
any other value. -/
inductive Failure where
  | axiosError : Option InternalAxiosRequestConfig → Failure
  | other : JSVal → Failure
deriving DecidableEq

/-- The guard `axios_static.isAxiosError(error) && error.config` of the
`AxiosErrorMetric` constructor. -/
def isAxiosErrorWithConfig : Failure → Bool
  | .axiosError (some _) => true
  | _ => false

/-- The `AxiosErrorMetric` class fields. -/
structure AxiosErrorMetric where
  method : Option String
  url : Option String
  request : Option RequestMetric
  headers : Option Headers
  end_time : Int
  response_time : Int
  error : Failure
deriving DecidableEq

/-- The `AxiosErrorMetric` constructor. On a recognized axios error with a
config it copies method, url and the request headers, embeds the stored
request metric and computes the elapsed time; reading absent correlation
metadata throws (`none`). Otherwise it leaves `method`, `url`, `headers`
and `request` unassigned and sets `response_time` to `-1`. -/
def AxiosErrorMetric.ofError (error : Failure) (end_time : Int) :
    Option AxiosErrorMetric :=
  match error with
  | .axiosError (some config) =>
    match readMetricRequest config with
    | none => none
    | some req =>
      some { method := config.method
             url := config.url
             request := some
               { headers := req.headers
                 start_time := req.start_time
                 data := req.data }
             headers := some config.headers
             end_time := end_time
             response_time := end_time - req.start_time
             error := error }
  | _ =>
    some { method := none
           url := none
           request := none
           headers := none
           end_time := end_time
           response_time := -1
           error := error }

/-- Outcome of an interceptor hook as seen by the rest of the axios
promise chain: the fulfilled response or the rejected error value. -/
inductive Outcome where
  | fulfilled : AxiosResponse → Outcome
  | rejected : Failure → Outcome
deriving DecidableEq

/-- The request interceptor installed by `useRequestMetric`: builds the
metric from the config, overwrites `config.metadata` with a fresh object
holding only the `metric.request` entry, and returns the config. The
result pairs the metric handed to the callback with the returned config. -/
def requestHook (config : InternalAxiosRequestConfig) (start_time : Int) :
    AxiosRequestMetric × InternalAxiosRequestConfig :=
  let metric := AxiosRequestMetric.ofConfig config start_time
  (metric,
    { config with
      metadata := some { metric := some metric, extra := [] } })

/-- The success hook installed by `useResponseMetric`:
`res?.(AxiosResponseMetric.fromAxiosResponse(response), response)` then
`return response`. The optional call short-circuits: with no callback the
metric is never computed. The result pairs the metric delivered to the
callback (`none` when no callback ran) with the outcome; the whole result
is `none` when the hook itself throws. -/
def responseSuccessHook (hasResCb : Bool) (response : AxiosResponse)
    (end_time : Int) : Option (Option AxiosResponseMetric × Outcome) :=
  if hasResCb then
    match AxiosResponseMetric.fromAxiosResponse response end_time with
    | none => none
    | some m => some (some m, Outcome.fulfilled response)
  else
    some (none, Outcome.fulfilled response)

/-- The error hook installed by `useResponseMetric`:
`err?.(new AxiosErrorMetric(error), error)` then
`return Promise.reject(error)`. The optional call short-circuits: with no
callback no `AxiosErrorMetric` is constructed. -/
def responseErrorHook (hasErrCb : Bool) (error : Failure) (end_time : Int) :
    Option (Option AxiosErrorMetric × Outcome) :=
  if hasErrCb then
    match AxiosErrorMetric.ofError error end_time with
    | none => none
    | some m => some (some m, Outcome.rejected error)
  else
    some (none, Outcome.rejected error)

/-- The error hook as wired by the `use` convenience function: `use` calls
`useResponseMetric(axios, responseMetricCallback)` with the `err`
parameter absent. -/
def useErrorHook (error : Failure) (end_time : Int) :
    Option (Option AxiosErrorMetric × Outcome) :=
  responseErrorHook false error end_time

/-- A concrete stored request metric: GET /items captured at time 100. -/
def sampleStoredMetric : AxiosRequestMetric :=
  { method := some "get"
    url := some "/items"
    headers := [("accept", JSVal.str "application/json")]
    data := none
    start_time := 100 }

/-- A concrete config that went through the request interceptor: its
metadata holds `sampleStoredMetric`. -/
def sampleConfig : InternalAxiosRequestConfig :=
  { method := some "get"
    url := some "/items"
    headers := [("accept", JSVal.str "application/json")]
    data := none
    metadata := some { metric := some sampleStoredMetric, extra := [] } }

/-- A concrete 200 response arriving at time 150 for `sampleConfig`. -/
def sampleResponse : AxiosResponse :=
  { config := sampleConfig
    headers := [("content-type", JSVal.str "application/json")]
    status := 200
    statusText := "OK"
    data := some (JSVal.str "body") }

/-- A concrete config on which the correlation metadata was never
attached (its `metadata` field is absent at runtime). -/
def bareConfig : InternalAxiosRequestConfig :=
  { method := some "get"
    url := some "/items"
    headers := [("accept", JSVal.str "application/json")]
    data := none
    metadata := none }

/-- C1: for every response whose config carries correlation metadata with
request start timestamp t0, and every end timestamp t1 with t1 ≥ t0, the
derived ResponseMetric has response_time exactly t1 - t0, which is not
negative. -/
theorem C1_response_time_exact (response : AxiosResponse)
    (req : AxiosRequestMetric) (t0 t1 : Int)
    (hread : readMetricRequest response.config = some req)
    (ht0 : req.start_time = t0) (hle : t0 ≤ t1) :
    (AxiosResponseMetric.fromAxiosResponse response t1).map
      AxiosResponseMetric.response_time = some (t1 - t0) ∧ 0 ≤ t1 - t0 := by
  subst ht0
  refine ⟨?_, by omega⟩
  simp [AxiosResponseMetric.fromAxiosResponse, hread, AxiosResponseMetric.ofFields]

/-- Witness for C1 at the sample response: t0 = 100, t1 = 150. -/
theorem C1_response_time_exact_witness :
    (AxiosResponseMetric.fromAxiosResponse sampleResponse 150).map
      AxiosResponseMetric.response_time = some (150 - 100) ∧
      (0 : Int) ≤ 150 - 100 :=
  C1_response_time_exact sampleResponse sampleStoredMetric 100 150 rfl rfl
    (by decide)

/-- C2: the claim says every derived ResponseMetric embeds the originating
RequestMetric, but the private constructor never assigns the request
field; at the sample response the correlation metadata is present and
readable, yet the produced metric's request field is absent. -/
theorem C2_request_field_dropped :
    readMetricRequest sampleResponse.config = some sampleStoredMetric ∧
    (AxiosResponseMetric.fromAxiosResponse sampleResponse 150).map
      AxiosResponseMetric.request = some none :=
  ⟨rfl, rfl⟩

/-- C3: the claim says constructing an AxiosErrorMetric never throws, but
on an axios error whose config never had correlation metadata attached
the recognized branch is taken and reading `config.metadata.metric`
throws a TypeError (modelled as `none`). -/
theorem C3_constructor_throws :
    isAxiosErrorWithConfig (Failure.axiosError (some bareConfig)) = true ∧
    AxiosErrorMetric.ofError (Failure.axiosError (some bareConfig)) 150 =
      none :=
  ⟨rfl, rfl⟩

/-- C4: for every failure value not recognizable as an axios client error
carrying a request configuration, the constructed AxiosErrorMetric has an
absent request field and response_time equal to the sentinel -1. -/
theorem C4_unrecognized_degraded (error : Failure) (end_time : Int)
    (h : isAxiosErrorWithConfig error = false) :
    (AxiosErrorMetric.ofError error end_time).map
      AxiosErrorMetric.request = some none ∧
    (AxiosErrorMetric.ofError error end_time).map
      AxiosErrorMetric.response_time = some (-1) := by
  cases error with
  | axiosError cfg =>
    cases cfg with
    | none => exact ⟨rfl, rfl⟩
    | some c => simp [isAxiosErrorWithConfig] at h
  | other v => exact ⟨rfl, rfl⟩

/-- Witness for C4 at a foreign failure value. -/
theorem C4_unrecognized_degraded_witness :
    (AxiosErrorMetric.ofError (Failure.other (JSVal.str "boom")) 150).map
      AxiosErrorMetric.request = some none ∧
    (AxiosErrorMetric.ofError (Failure.other (JSVal.str "boom")) 150).map
      AxiosErrorMetric.response_time = some (-1) :=
  C4_unrecognized_degraded (Failure.other (JSVal.str "boom")) 150 rfl

/-- C5: for every axios client error carrying a config with attached
correlation metadata, the constructed AxiosErrorMetric has request
present with the stored metric's headers, start_time and data, and
response_time equal to end_time minus the stored start_time. -/
theorem C5_correlated_error (config : InternalAxiosRequestConfig)
    (req : AxiosRequestMetric) (end_time : Int)
    (hread : readMetricRequest config = some req) :
    (AxiosErrorMetric.ofError (Failure.axiosError (some config))
        end_time).map AxiosErrorMetric.request =
      some (some
        { headers := req.headers
          start_time := req.start_time
          data := req.data }) ∧
    (AxiosErrorMetric.ofError (Failure.axiosError (some config))
        end_time).map AxiosErrorMetric.response_time =
      some (end_time - req.start_time) := by
  constructor <;> simp [AxiosErrorMetric.ofError, hread]

/-- Witness for C5 at the sample config with its stored metric. -/
theorem C5_correlated_error_witness :
    (AxiosErrorMetric.ofError (Failure.axiosError (some sampleConfig))
        150).map AxiosErrorMetric.request =
      some (some
        { headers := sampleStoredMetric.headers
          start_time := sampleStoredMetric.start_time
          data := sampleStoredMetric.data }) ∧
    (AxiosErrorMetric.ofError (Failure.axiosError (some sampleConfig))
        150).map AxiosErrorMetric.response_time =
      some (150 - sampleStoredMetric.start_time) :=
  C5_correlated_error sampleConfig sampleStoredMetric 150 rfl

/-- C6: whenever the success hook completes it returns the very response
it received, and whenever the error hook completes it rejects with the
very error it received: the hooks never complete with a changed outcome. -/
theorem C6_outcome_forwarded (hasRes hasErr : Bool)
    (response : AxiosResponse) (error : Failure) (t u : Int)
    (hres : (responseSuccessHook hasRes response t).isSome = true)
    (herr : (responseErrorHook hasErr error u).isSome = true) :
    (responseSuccessHook hasRes response t).map Prod.snd =
      some (Outcome.fulfilled response) ∧
    (responseErrorHook hasErr error u).map Prod.snd =
      some (Outcome.rejected error) := by
  constructor
  · cases hasRes with
    | false => rfl
    | true =>
      cases hm : AxiosResponseMetric.fromAxiosResponse response t with
      | none => simp [responseSuccessHook, hm] at hres
      | some m => simp [responseSuccessHook, hm]
  · cases hasErr with
    | false => rfl
    | true =>
      cases hm : AxiosErrorMetric.ofError error u with
      | none => simp [responseErrorHook, hm] at herr
      | some m => simp [responseErrorHook, hm]

/-- Witness for C6 with both callbacks registered, at the sample response
and a foreign error. -/
theorem C6_outcome_forwarded_witness :
    (responseSuccessHook true sampleResponse 150).map Prod.snd =
      some (Outcome.fulfilled sampleResponse) ∧
    (responseErrorHook true (Failure.other (JSVal.num 7)) 150).map
      Prod.snd = some (Outcome.rejected (Failure.other (JSVal.num 7))) :=
  C6_outcome_forwarded true true sampleResponse (Failure.other (JSVal.num 7))
    150 150 rfl rfl

/-- C7: with no error callback registered (as in the `use` composition),
the error hook completes without throwing for every failure value,
delivers no metric to any callback (so no AxiosErrorMetric is
constructed), and rejects with the original error. -/
theorem C7_absent_error_callback (error : Failure) (end_time : Int) :
    useErrorHook error end_time = some (none, Outcome.rejected error) :=
  rfl

/-- C8: an AxiosErrorMetric built from an axios error with a config takes
its headers from the config (the request headers), while an
AxiosResponseMetric takes its headers from the response headers. -/
theorem C8_headers_sources (config : InternalAxiosRequestConfig)
    (end_time : Int) (response : AxiosResponse) (t : Int)
    (he : (AxiosErrorMetric.ofError (Failure.axiosError (some config))
      end_time).isSome = true)
    (hr : (AxiosResponseMetric.fromAxiosResponse response t).isSome =
      true) :
    (AxiosErrorMetric.ofError (Failure.axiosError (some config))
        end_time).map AxiosErrorMetric.headers =
      some (some config.headers) ∧
    (AxiosResponseMetric.fromAxiosResponse response t).map
      AxiosResponseMetric.headers = some (some response.headers) := by
  constructor
  · cases hc : readMetricRequest config with
    | none => simp [AxiosErrorMetric.ofError, hc] at he
    | some req => simp [AxiosErrorMetric.ofError, hc]
  · cases hc : readMetricRequest response.config with
    | none => simp [AxiosResponseMetric.fromAxiosResponse, hc] at hr
    | some req =>
      simp [AxiosResponseMetric.fromAxiosResponse, hc,
        AxiosResponseMetric.ofFields]

/-- Witness for C8 at the sample config and sample response. -/
theorem C8_headers_sources_witness :
    (AxiosErrorMetric.ofError (Failure.axiosError (some sampleConfig))
        150).map AxiosErrorMetric.headers =
      some (some sampleConfig.headers) ∧
    (AxiosResponseMetric.fromAxiosResponse sampleResponse 150).map
      AxiosResponseMetric.headers = some (some sampleResponse.headers) :=
  C8_headers_sources sampleConfig 150 sampleResponse 150 rfl rfl

/-- C9: the request hook returns the config with method, url, headers and
data unchanged (only metadata is rewritten), and the metric it builds
stores exactly the config's method, url, headers and data together with
the given start timestamp; absent fields stay absent. -/
theorem C9_request_hook_frame (config : InternalAxiosRequestConfig)
    (start_time : Int) :
    ((requestHook config start_time).2.method = config.method ∧
      (requestHook config start_time).2.url = config.url ∧
      (requestHook config start_time).2.headers = config.headers ∧
      (requestHook config start_time).2.data = config.data) ∧
    ((requestHook config start_time).1.method = config.method ∧
      (requestHook config start_time).1.url = config.url ∧
      (requestHook config start_time).1.headers = config.headers ∧
      (requestHook config start_time).1.data = config.data ∧
      (requestHook config start_time).1.start_time = start_time) :=
  ⟨⟨rfl, rfl, rfl, rfl⟩, rfl, rfl, rfl, rfl, rfl⟩

/-- C10: the request hook replaces the config's metadata wholesale with a
fresh object holding only the metric.request entry, whatever metadata the
config carried before. -/
theorem C10_metadata_replaced (config : InternalAxiosRequestConfig)
    (start_time : Int) :
    (requestHook config start_time).2.metadata =
      some { metric := some (AxiosRequestMetric.ofConfig config start_time)
             extra := [] } :=
  rfl

end AxiosMetric
